import Mathlib

/-!
Shallow embedding of the `FormulaEngine` class of
`src/backend/app/api/spreadsheet.py` (the formula evaluation engine), with
theorems about its reference resolver, argument splitter, function library,
expression evaluator and `evaluate` entry point.

Python values are modelled by the inductive `Value` (floats as rationals),
the mutable `self.data` dictionary by an association list threaded through
an explicit state-and-exceptions monad `EngineM`, and Python's finite call
stack by a fuel parameter: every method call consumes one level of fuel and
a call at fuel 0 raises `RecursionError`.
-/

/-- A runtime value of the engine: the Python values that can appear as cell
contents, intermediate results and final results.  `int`/`float`/`str`/`bool`
are scalars (floats modelled as rationals), `list` is a (possibly nested)
Python list as produced by range lookups, and `error` is the
`{"error": msg}` dictionary that the `evaluate` boundary returns for a
caught exception. -/
inductive Value where
  | int (n : Int)
  | float (q : Rat)
  | str (s : String)
  | bool (b : Bool)
  | list (l : List Value)
  | error (msg : String)

/-- The cell-data dictionary `self.data`: reference string → stored content.
Dictionary keys are unique, so an association list with first-match lookup
is a faithful model. -/
abbrev Ctx := List (String × Value)

/-- `key in self.data` style lookup: the first binding of `key`, if any. -/
def ctxLookup (ctx : Ctx) (key : String) : Option Value :=
  match ctx.find? (fun p => decide (p.1 = key)) with
  | some p => some p.2
  | none => none

/-- Python `self.data.get(key, dflt)`. -/
def ctxGet (ctx : Ctx) (key : String) (dflt : Value) : Value :=
  (ctxLookup ctx key).getD dflt

/-! ### Models of the Python string primitives used by the engine

Lean's core `String` functions are byte-position based and do not reduce
well inside the kernel, so the handful of Python string operations the
engine uses are modelled directly on the character list `String.data`.
They are ASCII-faithful (the engine's inputs are formulas and A1
references). -/

/-- Python `str.strip()` (whitespace from both ends). -/
def pyStrip (s : String) : String :=
  String.mk (((s.data.dropWhile Char.isWhitespace).reverse.dropWhile
    Char.isWhitespace).reverse)

/-- Python `c in s` for a single character. -/
def containsChar (s : String) (c : Char) : Bool :=
  s.data.any (fun x => x == c)

/-- Python `s.replace(c, '')`: remove every occurrence of one character. -/
def removeChar (s : String) (c : Char) : String :=
  String.mk (s.data.filter (fun x => x != c))

/-- Python `s.upper()` (ASCII). -/
def toUpperS (s : String) : String := String.mk (s.data.map Char.toUpper)

/-- Python `s.lower()` (ASCII). -/
def toLowerS (s : String) : String := String.mk (s.data.map Char.toLower)

/-- Python `s.startswith(c)` for a one-character prefix. -/
def pyStartsWith (s : String) (c : Char) : Bool :=
  match s.data with
  | x :: _ => x == c
  | [] => false

/-- Helper for `s.split(c, 1)`: the text before and after the first
occurrence of `c` (the whole text and `[]` when `c` is absent). -/
def breakAtFirst (c : Char) : List Char → List Char × List Char
  | [] => ([], [])
  | x :: xs =>
    if x == c then ([], xs)
    else
      let p := breakAtFirst c xs
      (x :: p.1, p.2)

/-- Helper for `s.rsplit(c, 1)[0]`: the text before the last occurrence of
`c`, or the whole text when `c` is absent. -/
def beforeLast (c : Char) (l : List Char) : List Char :=
  if l.any (fun x => x == c) then ((breakAtFirst c l.reverse).2).reverse
  else l

/-- Python `s.split(c)` (full split on one character). -/
def splitChar (c : Char) : List Char → List (List Char)
  | [] => [[]]
  | x :: xs =>
    let r := splitChar c xs
    if x == c then [] :: r
    else
      match r with
      | h :: t => (x :: h) :: t
      | [] => [[x]]

/-- Python `s.isalnum()`: nonempty and all characters alphanumeric. -/
def pyIsAlnum (s : String) : Bool :=
  !s.data.isEmpty && s.data.all Char.isAlphanum

/-- The numeric value of a run of decimal digit characters. -/
def digitsVal (ds : List Char) : Nat :=
  ds.foldl (fun a c => a * 10 + (c.toNat - 48)) 0

/-- Python `float(s)`: optional sign, decimal digits with optional fraction
and exponent, surrounding whitespace allowed; anything else fails
(`ValueError`).  Digit-group underscores and `inf`/`nan` are not modelled
(they fail the parse here). -/
def pyFloat (s : String) : Option Rat :=
  let cs := (pyStrip s).data
  let sp := match cs with
    | '+' :: r => ((1 : Int), r)
    | '-' :: r => ((-1 : Int), r)
    | r => ((1 : Int), r)
  let sign := sp.1
  let ip := sp.2.takeWhile Char.isDigit
  let afterInt := sp.2.dropWhile Char.isDigit
  let fp := match afterInt with
    | '.' :: r => (r.takeWhile Char.isDigit, r.dropWhile Char.isDigit)
    | r => (([] : List Char), r)
  let frac := fp.1
  if ip.isEmpty && frac.isEmpty then none
  else
    let ep : Bool × Int × List Char := match fp.2 with
      | 'e' :: r | 'E' :: r =>
        let es := match r with
          | '+' :: r2 => ((1 : Int), r2)
          | '-' :: r2 => ((-1 : Int), r2)
          | r2 => ((1 : Int), r2)
        let ed := es.2.takeWhile Char.isDigit
        if ed.isEmpty then (false, 0, es.2)
        else (true, es.1 * (digitsVal ed : Int), es.2.dropWhile Char.isDigit)
      | r => (true, 0, r)
    if !ep.1 || !ep.2.2.isEmpty then none
    else
      let e := ep.2.1
      let mant : Int := sign * (digitsVal (ip ++ frac) : Int)
      let k : Int := (frac.length : Int)
      if k ≤ e then some (Rat.ofInt (mant * 10 ^ (e - k).toNat))
      else some (mkRat mant (10 ^ (k - e).toNat))

/-- Python `int(s)` for strings: optional sign and decimal digits,
whitespace-stripped; anything else raises `ValueError`.  Digit-group
underscores are not modelled. -/
def pyIntOfStr (s : String) : Except String Int :=
  let cs := (pyStrip s).data
  let sp := match cs with
    | '+' :: r => ((1 : Int), r)
    | '-' :: r => ((-1 : Int), r)
    | r => ((1 : Int), r)
  if !sp.2.isEmpty && sp.2.all Char.isDigit then
    Except.ok (sp.1 * (digitsVal sp.2 : Int))
  else Except.error ("invalid literal for int() with base 10: " ++ s)

/-! ### Models of the Python value primitives used by the function table -/

/-- `type(x).__name__` for error messages. -/
def pyType : Value → String
  | Value.int _ => "int"
  | Value.float _ => "float"
  | Value.str _ => "str"
  | Value.bool _ => "bool"
  | Value.list _ => "list"
  | Value.error _ => "dict"

/-- `isinstance(x, (int, float))` — Python booleans are ints, the
`{"error": ...}` dict and strings are not numbers. -/
def isNumV : Value → Bool
  | Value.int _ => true
  | Value.float _ => true
  | Value.bool _ => true
  | _ => false

/-- Is the value a Python `str`? -/
def isStrV : Value → Bool
  | Value.str _ => true
  | _ => false

/-- The numeric content of a value (`bool` counts as 0/1), if any. -/
def ratOf : Value → Option Rat
  | Value.int n => some (n : Rat)
  | Value.float q => some q
  | Value.bool b => some (if b then 1 else 0)
  | _ => none

/-- Python `+` on the engine's values, as used by `sum`: numbers add
(`int + int` stays `int`, a `float` operand makes the result `float`,
booleans count as 0/1), strings and lists concatenate, and any other pair
raises `TypeError`. -/
def pyAdd : Value → Value → Except String Value
  | Value.int n, Value.int m => Except.ok (Value.int (n + m))
  | Value.int n, Value.bool b => Except.ok (Value.int (n + if b then 1 else 0))
  | Value.bool a, Value.int m => Except.ok (Value.int ((if a then 1 else 0) + m))
  | Value.bool a, Value.bool b =>
    Except.ok (Value.int ((if a then 1 else 0) + if b then 1 else 0))
  | Value.int n, Value.float q => Except.ok (Value.float ((n : Rat) + q))
  | Value.float q, Value.int n => Except.ok (Value.float (q + (n : Rat)))
  | Value.float p, Value.float q => Except.ok (Value.float (p + q))
  | Value.float q, Value.bool b =>
    Except.ok (Value.float (q + if b then 1 else 0))
  | Value.bool b, Value.float q =>
    Except.ok (Value.float ((if b then (1 : Rat) else 0) + q))
  | Value.str a, Value.str b => Except.ok (Value.str (a ++ b))
  | Value.list a, Value.list b => Except.ok (Value.list (a ++ b))
  | a, b =>
    Except.error ("TypeError: unsupported operand type(s) for +: '"
      ++ pyType a ++ "' and '" ++ pyType b ++ "'")

/-- The fold inside Python `sum(xs)`: accumulate `+` over the list. -/
def pySumGo : Value → List Value → Except String Value
  | acc, [] => Except.ok acc
  | acc, v :: rest =>
    match pyAdd acc v with
    | Except.ok acc' => pySumGo acc' rest
    | Except.error e => Except.error e

/-- Python `sum(xs)`: left fold of `+` starting from the `int` 0. -/
def pySum (l : List Value) : Except String Value := pySumGo (Value.int 0) l

/-- Python `/` (true division): numbers divide to a `float`; division by
zero raises `ZeroDivisionError`; non-numbers raise `TypeError`. -/
def pyTrueDiv (a b : Value) : Except String Value :=
  match ratOf a, ratOf b with
  | some x, some y =>
    if y = 0 then Except.error "ZeroDivisionError: division by zero"
    else Except.ok (Value.float (x / y))
  | _, _ =>
    Except.error ("TypeError: unsupported operand type(s) for /: '"
      ++ pyType a ++ "' and '" ++ pyType b ++ "'")

/-- Python `a > b` for the scalar values reachable inside `max`: numbers
compare numerically (booleans as 0/1), strings lexicographically by code
point, and any other pair raises `TypeError`.  (`list` operands cannot
reach this comparison in the engine because `max`/`min` consume flattened
argument lists.) -/
def pyGtB (a b : Value) : Except String Bool :=
  match ratOf a, ratOf b with
  | some x, some y => Except.ok (decide (y < x))
  | _, _ =>
    match a, b with
    | Value.str s, Value.str t => Except.ok (decide (t < s))
    | _, _ =>
      Except.error ("TypeError: '>' not supported between instances of '"
        ++ pyType a ++ "' and '" ++ pyType b ++ "'")

/-- Python `a < b` (see `pyGtB`). -/
def pyLtB (a b : Value) : Except String Bool :=
  match ratOf a, ratOf b with
  | some x, some y => Except.ok (decide (x < y))
  | _, _ =>
    match a, b with
    | Value.str s, Value.str t => Except.ok (decide (s < t))
    | _, _ =>
      Except.error ("TypeError: '<' not supported between instances of '"
        ++ pyType a ++ "' and '" ++ pyType b ++ "'")

/-- The loop inside Python `max(xs)`/`min(xs)`: keep the best value so far,
replacing it whenever `cmp item best` holds (`>` for `max`, `<` for
`min`). -/
def foldBest (cmp : Value → Value → Except String Bool) :
    Value → List Value → Except String Value
  | best, [] => Except.ok best
  | best, v :: rest =>
    match cmp v best with
    | Except.ok b => foldBest cmp (if b then v else best) rest
    | Except.error e => Except.error e

/-- Python `max(xs)` on a list. -/
def pyMax : List Value → Except String Value
  | [] => Except.error "ValueError: max() arg is an empty sequence"
  | v :: rest => foldBest pyGtB v rest

/-- Python `min(xs)` on a list. -/
def pyMin : List Value → Except String Value
  | [] => Except.error "ValueError: min() arg is an empty sequence"
  | v :: rest => foldBest pyLtB v rest

/-- Python truthiness of the engine's values (zero and empty containers are
falsy; the `{"error": ...}` dict is a nonempty dict, hence truthy). -/
def pyTruthy : Value → Bool
  | Value.int n => n != 0
  | Value.float q => !decide (q = 0)
  | Value.str s => !s.data.isEmpty
  | Value.bool b => b
  | Value.list l => !l.isEmpty
  | Value.error _ => true

/-- Python `a[i]` for a nonnegative index: `IndexError` past the end. -/
def pyIndexE (l : List Value) (i : Nat) : Except String Value :=
  match l.get? i with
  | some v => Except.ok v
  | none => Except.error "IndexError: list index out of range"

/-- Python `abs(x)`. -/
def pyAbs : Value → Except String Value
  | Value.int n => Except.ok (Value.int (if n < 0 then -n else n))
  | Value.float q => Except.ok (Value.float (if q < 0 then -q else q))
  | Value.bool b => Except.ok (Value.int (if b then 1 else 0))
  | v => Except.error ("TypeError: bad operand type for abs(): '" ++ pyType v ++ "'")

/-- Python `int(x)` on engine values: ints stay, booleans become 0/1,
floats truncate toward zero, strings parse; lists and dicts raise
`TypeError`. -/
def pyInt : Value → Except String Int
  | Value.int n => Except.ok n
  | Value.bool b => Except.ok (if b then 1 else 0)
  | Value.float q => Except.ok (Int.tdiv q.num (q.den : Int))
  | Value.str s => pyIntOfStr s
  | v => Except.error ("TypeError: int() argument must be a string or a number, not '"
      ++ pyType v ++ "'")

/-- Round half to even on rationals (Python `round`'s tie rule; Python
rounds the actual binary float, which this rational model idealises). -/
def halfEven (x : Rat) : Int :=
  let f := x.floor
  let r := x - (f : Rat)
  if r < 1 / 2 then f
  else if 1 / 2 < r then f + 1
  else if f % 2 = 0 then f else f + 1

/-- `10 ^ n` as a rational, for an integer (possibly negative) `n`. -/
def pow10 (n : Int) : Rat :=
  if 0 ≤ n then Rat.ofInt (10 ^ n.toNat) else mkRat 1 (10 ^ (-n).toNat)

/-- Python `round(x, nd)`: ints are returned unchanged for `nd ≥ 0` and
rounded to a multiple of a power of ten otherwise; floats round half to
even at `nd` digits; anything else raises `TypeError`. -/
def pyRound (v : Value) (nd : Int) : Except String Value :=
  match v with
  | Value.int n =>
    if 0 ≤ nd then Except.ok (Value.int n)
    else
      let m : Int := 10 ^ (-nd).toNat
      Except.ok (Value.int (halfEven (mkRat n m.toNat) * m))
  | Value.bool b =>
    let n : Int := if b then 1 else 0
    if 0 ≤ nd then Except.ok (Value.int n)
    else Except.ok (Value.int 0)
  | Value.float q =>
    Except.ok (Value.float ((halfEven (q * pow10 nd) : Rat) * pow10 (-nd)))
  | v =>
    Except.error ("TypeError: type " ++ pyType v ++ " doesn't define __round__ method")

/-- Python `a ** b`.  Integer bases and exponents follow Python exactly
(`int` result for a nonnegative exponent, `float` otherwise,
`ZeroDivisionError` for `0` to a negative power).  A fractional exponent
would produce an irrational float, which the rational value model cannot
represent; it is reported as an error (no claim exercises it). -/
def pyPow (a b : Value) : Except String Value :=
  match ratOf a, ratOf b with
  | some x, some y =>
    if y.den = 1 then
      let m := y.num
      let intLike : Bool := !(match a, b with
        | Value.float _, _ => true
        | _, Value.float _ => true
        | _, _ => false)
      if 0 ≤ m then
        if intLike then Except.ok (Value.int (x.num ^ m.toNat))
        else Except.ok (Value.float (x ^ m.toNat))
      else if x = 0 then
        Except.error "ZeroDivisionError: 0.0 cannot be raised to a negative power"
      else Except.ok (Value.float (x⁻¹ ^ (-m).toNat))
    else Except.error "fractional exponents are outside the rational float model"
  | _, _ =>
    Except.error ("TypeError: unsupported operand type(s) for ** or pow(): '"
      ++ pyType a ++ "' and '" ++ pyType b ++ "'")

/-- Python `str(float)`: best-effort decimal rendering of the rational
model (sign, integer part, up to 17 fractional digits); only its existence
matters to the claims, none of which depend on float formatting. -/
def fracDigits : Nat → Rat → List Char
  | 0, _ => []
  | fuel + 1, r =>
    if r = 0 then []
    else
      let r10 := r * 10
      let d := r10.floor
      Char.ofNat (48 + d.toNat) :: fracDigits fuel (r10 - (d : Rat))

/-- Python `str(x)` for a float value (see `fracDigits`). -/
def floatStr (q : Rat) : String :=
  let sign := if q < 0 then "-" else ""
  let a := if q < 0 then -q else q
  let ipart := a.floor
  let ds := fracDigits 17 (a - (ipart : Rat))
  sign ++ toString ipart ++ "." ++ (if ds.isEmpty then "0" else String.mk ds)

mutual
/-- Python `repr(x)` for engine values (string quoting simplified: no
escaping; the error dict renders as a one-entry dict literal). -/
def pyRepr : Value → String
  | Value.int n => toString n
  | Value.float q => floatStr q
  | Value.str s => "'" ++ s ++ "'"
  | Value.bool b => if b then "True" else "False"
  | Value.list l => "[" ++ pyReprList l ++ "]"
  | Value.error m => "\x7b'error': '" ++ m ++ "'\x7d"

/-- Comma-separated `repr`s of the elements of a list. -/
def pyReprList : List Value → String
  | [] => ""
  | [v] => pyRepr v
  | v :: rest => pyRepr v ++ ", " ++ pyReprList rest
end

/-- Python `str(x)`: like `repr` except that strings print unquoted. -/
def pyStr : Value → String
  | Value.str s => s
  | v => pyRepr v

/-- Python `s[:n]` on strings (an `Int` bound; a negative bound counts from
the end, clamped). -/
def pySliceTo (s : String) (n : Int) : String :=
  if 0 ≤ n then String.mk (s.data.take n.toNat)
  else String.mk (s.data.take (s.data.length - min s.data.length n.natAbs))

/-- Python `s[i:]` on strings (an `Int` start; a negative start counts from
the end, clamped). -/
def pySliceFrom (s : String) (i : Int) : String :=
  if 0 ≤ i then String.mk (s.data.drop i.toNat)
  else String.mk (s.data.drop (s.data.length - min s.data.length i.natAbs))

mutual
/-- `_flatten` applied to one item: lists flatten recursively, any other
value is a singleton (`arr if isinstance(arr, list) else [arr]`). -/
def flattenV : Value → List Value
  | Value.list l => flattenL l
  | v => [v]

/-- `_flatten` applied to a list: extend with the flattening of every
item. -/
def flattenL : List Value → List Value
  | [] => []
  | v :: rest => flattenV v ++ flattenL rest
end

/-! ### The function library (`_call_function`) -/

/-- `_call_function`: dispatch on the uppercased name through the fixed
builtin table; an unlisted name raises `ValueError("Unknown function: ...")`.
Each entry mirrors the corresponding Python lambda, including its
evaluation order and the places it can raise. -/
def call_function (name : String) (args : List Value) : Except String Value :=
  match name with
  | "SUM" => pySum (flattenL args)
  | "AVERAGE" =>
    -- sum(flat) / len(flat) if flat else 0
    if (flattenL args).isEmpty then Except.ok (Value.int 0)
    else do
      let s ← pySum (flattenL args)
      pyTrueDiv s (Value.int ((flattenL args).length : Int))
  | "COUNT" =>
    -- len([x for x in flat if isinstance(x, (int, float))])
    Except.ok (Value.int (((flattenL args).countP (fun v => isNumV v)) : Int))
  | "MAX" =>
    if (flattenL args).isEmpty then Except.ok (Value.int 0)
    else pyMax (flattenL args)
  | "MIN" =>
    if (flattenL args).isEmpty then Except.ok (Value.int 0)
    else pyMin (flattenL args)
  | "IF" => do
    -- a[1] if a[0] else (a[2] if len(a) > 2 else False)
    let c ← pyIndexE args 0
    if pyTruthy c then pyIndexE args 1
    else if args.length > 2 then pyIndexE args 2
    else Except.ok (Value.bool false)
  | "AND" => Except.ok (Value.bool (args.all pyTruthy))
  | "OR" => Except.ok (Value.bool (args.any pyTruthy))
  | "ABS" => do
    let v ← pyIndexE args 0
    pyAbs v
  | "ROUND" => do
    -- round(a[0], int(a[1]) if len(a) > 1 else 0)
    let v ← pyIndexE args 0
    let nd ← if args.length > 1 then do
        let w ← pyIndexE args 1
        pyInt w
      else Except.ok (0 : Int)
    pyRound v nd
  | "POWER" => do
    let x ← pyIndexE args 0
    let y ← pyIndexE args 1
    pyPow x y
  | "CONCAT" =>
    -- ''.join(str(x) for x in a)
    Except.ok (Value.str ((args.map pyStr).foldl (fun acc s => acc ++ s) ""))
  | "LEFT" => do
    -- str(a[0])[:int(a[1]) if len(a) > 1 else 1]
    let v ← pyIndexE args 0
    let n ← if args.length > 1 then do
        let w ← pyIndexE args 1
        pyInt w
      else Except.ok (1 : Int)
    Except.ok (Value.str (pySliceTo (pyStr v) n))
  | "RIGHT" => do
    -- str(a[0])[-int(a[1]) if len(a) > 1 else 1:]
    -- NOTE the Python precedence: the slice start is the whole conditional
    -- `-int(a[1]) if len(a) > 1 else 1`, so the one-argument default start
    -- is the POSITIVE index 1, not -1.
    let v ← pyIndexE args 0
    let start ← if args.length > 1 then do
        let w ← pyIndexE args 1
        let k ← pyInt w
        Except.ok (-k)
      else Except.ok (1 : Int)
    Except.ok (Value.str (pySliceFrom (pyStr v) start))
  | "LEN" => do
    let v ← pyIndexE args 0
    Except.ok (Value.int ((pyStr v).data.length : Int))
  | "UPPER" => do
    let v ← pyIndexE args 0
    Except.ok (Value.str (toUpperS (pyStr v)))
  | "LOWER" => do
    let v ← pyIndexE args 0
    Except.ok (Value.str (toLowerS (pyStr v)))
  | _ => Except.error ("Unknown function: " ++ name)

/-! ### The reference resolver -/

/-- The base-26 letter-run → column fold inside `_parse_cell_ref`:
`col = col * 26 + (ord(char) - 65)` over the letters. -/
def letters_to_col (letters : List Char) : Int :=
  letters.foldl (fun col c => col * 26 + ((c.toNat : Int) - 65)) 0

/-- The `{'col': ..., 'row': ...}` dictionary `_parse_cell_ref` returns. -/
structure CellRef where
  col : Int
  row : Int
deriving DecidableEq

/-- `_parse_cell_ref`: match the regex `\$?([A-Z]+)\$?(\d+)` at the start of
the uppercased string (`re.match` ignores trailing text), then fold the
letter group in base 26 and subtract one from the printed row number;
no match raises `ValueError(f"Invalid cell reference: {ref}")`. -/
def parse_cell_ref (ref : String) : Except String CellRef :=
  let cs0 := (toUpperS ref).data
  let cs1 := match cs0 with
    | '$' :: r => r
    | r => r
  let letters := cs1.takeWhile (fun c => decide ('A' ≤ c) && decide (c ≤ 'Z'))
  let rest1 := cs1.dropWhile (fun c => decide ('A' ≤ c) && decide (c ≤ 'Z'))
  let rest2 := match rest1 with
    | '$' :: r => r
    | r => r
  let digits := rest2.takeWhile Char.isDigit
  if letters.isEmpty || digits.isEmpty then
    Except.error ("Invalid cell reference: " ++ ref)
  else Except.ok ⟨letters_to_col letters, (digitsVal digits : Int) - 1⟩

/-- The `while col >= 0` loop of `_col_to_letter`, prepending
`chr(65 + col % 26)` and stepping to `col // 26 - 1` (Python floor division
and nonnegative modulus).  The loop value strictly decreases while
nonnegative, so `col.toNat + 1` units of fuel always suffice; fuel 0 is
unreachable from `col_to_letter`. -/
def col_to_letter_go : Nat → Int → String → String
  | 0, _, acc => acc
  | fuel + 1, col, acc =>
    if 0 ≤ col then
      col_to_letter_go fuel (Int.fdiv col 26 - 1)
        (String.mk [Char.ofNat (65 + (Int.emod col 26).toNat)] ++ acc)
    else acc

/-- `_col_to_letter`: bijective base-26 rendering of a column index; the
empty result (negative input) falls back to `"A"` (`return result or "A"`). -/
def col_to_letter (col : Int) : String :=
  let r := col_to_letter_go (col.toNat + 1) col ""
  if r = "" then "A" else r

/-- The f-string `f"{col_letter}{row + 1}"` built inside the range loops. -/
def cellName (col row : Int) : String := col_to_letter col ++ toString (row + 1)

/-- Python `range(a, b)` over integers. -/
def pyRange (a b : Int) : List Int :=
  (List.range (b - a).toNat).map (fun (i : Nat) => a + (i : Int))

/-- The nested row/column loops of `_get_range_values`: each cell of the
grid is the direct lookup `self.data.get(cell_ref, 0)` — a raw dictionary
access, with no recursive evaluation of stored formula strings. -/
def rangeGrid (ctx : Ctx) (s e : CellRef) : List (List Value) :=
  (pyRange s.row (e.row + 1)).map (fun row =>
    (pyRange s.col (e.col + 1)).map (fun col =>
      ctxGet ctx (cellName col row) (Value.int 0)))

/-! ### The engine monad and the mutually recursive methods -/

/-- The engine's effect monad: the `self.data` dictionary threaded as
explicit state (it is only ever read, which the frame theorems make
precise), with Python exceptions as `Except.error`. -/
def EngineM (α : Type) : Type := Ctx → Except String α × Ctx

/-- `return` without effects. -/
def EngineM.pureE {α : Type} (a : α) : EngineM α := fun ctx => (Except.ok a, ctx)

/-- Sequencing: exceptions propagate, state threads through. -/
def EngineM.bindE {α β : Type} (x : EngineM α) (f : α → EngineM β) : EngineM β :=
  fun ctx =>
    match x ctx with
    | (Except.ok a, ctx') => f a ctx'
    | (Except.error e, ctx') => (Except.error e, ctx')

instance : Monad EngineM where
  pure := EngineM.pureE
  bind := EngineM.bindE

/-- Raise a Python exception. -/
def throwE {α : Type} (msg : String) : EngineM α := fun ctx => (Except.error msg, ctx)

/-- Run a pure Python computation that may raise. -/
def liftE {α : Type} (x : Except String α) : EngineM α := fun ctx => (x, ctx)

/-- The read-only dictionary access `self.data.get(key, dflt)`. -/
def dataGet (key : String) (dflt : Value) : EngineM Value :=
  fun ctx => (Except.ok (ctxGet ctx key dflt), ctx)

/-- The `try/except Exception` boundary of `evaluate`: a raised exception
becomes the `{"error": str(e)}` dictionary value. -/
def catchErr (x : EngineM Value) : EngineM Value := fun ctx =>
  match x ctx with
  | (Except.ok v, ctx') => (Except.ok v, ctx')
  | (Except.error e, ctx') => (Except.ok (Value.error e), ctx')

/-- `str(RecursionError(...))` for a call with no stack budget left. -/
def recursionMsg : String := "maximum recursion depth exceeded"

/-- `_get_range_values`: split the reference on `:` (unpacking into exactly
two parts), parse the two endpoint references, then collect the grid of
direct `self.data.get(..., 0)` lookups. -/
def get_range_values (rangeRef : String) : EngineM Value := fun ctx =>
  match (splitChar ':' rangeRef.data).map String.mk with
  | [start, stop] =>
    match parse_cell_ref start with
    | Except.error e => (Except.error e, ctx)
    | Except.ok sref =>
      match parse_cell_ref stop with
      | Except.error e => (Except.error e, ctx)
      | Except.ok eref =>
        (Except.ok (Value.list ((rangeGrid ctx sref eref).map Value.list)), ctx)
  | _ => (Except.error "ValueError: range reference does not unpack into start and end", ctx)

/-- One recursion level of the engine's four mutually recursive methods:
the bodies at level `n + 1` call the level-`n` methods, so one Python stack
frame corresponds to one level of fuel. -/
structure EngineFns where
  evaluate : String → EngineM Value
  parse_and_eval : String → EngineM Value
  parse_args : String → EngineM (List Value)
  get_cell_value : String → EngineM Value

/-- `evaluate` (its unused `cell_ref` parameter is omitted): a formula not
starting with `=` is echoed back unchanged; otherwise `formula[1:]` is
evaluated inside the catch-all exception boundary. -/
def evaluateFn (prev : EngineFns) (formula : String) : EngineM Value :=
  if !pyStartsWith formula '=' then EngineM.pureE (Value.str formula)
  else catchErr (prev.parse_and_eval (String.mk (formula.data.drop 1)))

/-- The `for char in args_str` loop of `_parse_args`: depth-aware splitting
at top-level commas, evaluating each completed argument with `eval1`
(`self._parse_and_eval`); a trailing argument is kept only if nonblank. -/
def parse_args_loop (eval1 : String → EngineM Value) :
    List Char → List Value → String → Int → EngineM (List Value)
  | [], args, current, _ =>
    if !(pyStrip current).data.isEmpty then do
      let v ← eval1 (pyStrip current)
      pure (args ++ [v])
    else pure args
  | c :: rest, args, current, depth =>
    if c == '(' then parse_args_loop eval1 rest args (current ++ String.mk [c]) (depth + 1)
    else if c == ')' then parse_args_loop eval1 rest args (current ++ String.mk [c]) (depth - 1)
    else if c == ',' && depth == 0 then do
      let v ← eval1 (pyStrip current)
      parse_args_loop eval1 rest (args ++ [v]) "" depth
    else parse_args_loop eval1 rest args (current ++ String.mk [c]) depth

/-- `_parse_args`: run the splitting loop with empty accumulators. -/
def parse_argsFn (prev : EngineFns) (argsStr : String) : EngineM (List Value) :=
  parse_args_loop prev.parse_and_eval argsStr.data [] "" 0

/-- The body of `_parse_and_eval` after the reassignment
`expr = expr.strip()`: a `(` means a function call (name before the first
`(`, uppercased; argument text before the last `)` of the tail, or the
whole tail when `)` is absent); otherwise a token of letters, digits, `:`
and `$` containing a letter is a reference; otherwise try `float`;
otherwise the stripped text itself. -/
def parse_and_eval_stripped (prev : EngineFns) (expr : String) : EngineM Value :=
  if containsChar expr '(' then
    let p := breakAtFirst '(' expr.data
    let funcName := toUpperS (String.mk p.1)
    let argsStr := String.mk (beforeLast ')' p.2)
    do
      let args ← prev.parse_args argsStr
      liftE (call_function funcName args)
  else if pyIsAlnum (removeChar (removeChar expr ':') '$')
      && expr.data.any Char.isAlpha then
    prev.get_cell_value expr
  else
    match pyFloat expr with
    | some q => EngineM.pureE (Value.float q)
    | none => EngineM.pureE (Value.str expr)

/-- `_parse_and_eval`: strip the expression, then dispatch on its shape. -/
def parse_and_evalFn (prev : EngineFns) (expr0 : String) : EngineM Value :=
  parse_and_eval_stripped prev (pyStrip expr0)

/-- `_get_cell_value`: a reference containing `:` is a range; otherwise
strip `$`, uppercase, read `self.data.get(clean_ref, 0)`, and recursively
evaluate the stored content when it is a string starting with `=`. -/
def get_cell_valueFn (prev : EngineFns) (ref : String) : EngineM Value :=
  if containsChar ref ':' then get_range_values ref
  else
    let cleanRef := toUpperS (removeChar ref '$')
    do
      let val ← dataGet cleanRef (Value.int 0)
      match val with
      | Value.str s =>
        if pyStartsWith s '=' then prev.evaluate s else pure val
      | _ => pure val

/-- Tie one level of the mutual recursion. -/
def engineStep (prev : EngineFns) : EngineFns :=
  ⟨evaluateFn prev, parse_and_evalFn prev, parse_argsFn prev, get_cell_valueFn prev⟩

/-- The engine at stack budget `n`: a call at budget 0 raises
`RecursionError`, and every method call descends one level. -/
def engine : Nat → EngineFns
  | 0 => ⟨fun _ => throwE recursionMsg, fun _ => throwE recursionMsg,
          fun _ => throwE recursionMsg, fun _ => throwE recursionMsg⟩
  | n + 1 => engineStep (engine n)

/-- The public entry point at a given stack budget. -/
def evaluate (fuel : Nat) (formula : String) : EngineM Value :=
  (engine fuel).evaluate formula

/-- Is the value the `{"error": ...}` dictionary? -/
def isErrV : Value → Bool
  | Value.error _ => true
  | _ => false

/-- Did the `Except` computation succeed? -/
def isOkE {α : Type} : Except String α → Bool
  | Except.ok _ => true
  | Except.error _ => false

/-- Comparison kind of a value: 0 = number-like (`int`/`float`/`bool`),
1 = string, 2 = anything else; Python's `>`/`<` succeed only within kinds
0 and 1. -/
def kindV : Value → Nat
  | Value.int _ => 0
  | Value.float _ => 0
  | Value.bool _ => 0
  | Value.str _ => 1
  | _ => 2

/-- An `EngineM` computation that leaves the threaded cell-data dictionary
exactly as it found it. -/
def Preserves {α : Type} (m : EngineM α) : Prop :=
  ∀ ctx : Ctx, (m ctx).2 = ctx

/-! ### Theorems.  First, plumbing lemmas for the engine monad. -/

theorem bind_eq {α β : Type} (x : EngineM α) (f : α → EngineM β) :
    x >>= f = EngineM.bindE x f := rfl

theorem pure_eq {α : Type} (a : α) : (pure a : EngineM α) = EngineM.pureE a := rfl

theorem engine_succ (n : Nat) : engine (n + 1) = engineStep (engine n) := rfl

theorem engineStep_evaluate (prev : EngineFns) :
    (engineStep prev).evaluate = evaluateFn prev := rfl

theorem engineStep_parse_and_eval (prev : EngineFns) :
    (engineStep prev).parse_and_eval = parse_and_evalFn prev := rfl

theorem engineStep_parse_args (prev : EngineFns) :
    (engineStep prev).parse_args = parse_argsFn prev := rfl

theorem engineStep_get_cell_value (prev : EngineFns) :
    (engineStep prev).get_cell_value = get_cell_valueFn prev := rfl

theorem preserves_pureE {α : Type} (a : α) : Preserves (EngineM.pureE a) :=
  fun _ => rfl

theorem preserves_pure {α : Type} (a : α) : Preserves (pure a : EngineM α) :=
  fun _ => rfl

theorem preserves_throwE {α : Type} (msg : String) :
    Preserves (throwE (α := α) msg) := fun _ => rfl

theorem preserves_liftE {α : Type} (x : Except String α) : Preserves (liftE x) :=
  fun _ => rfl

theorem preserves_dataGet (key : String) (dflt : Value) :
    Preserves (dataGet key dflt) := fun _ => rfl

theorem preserves_bindE {α β : Type} {x : EngineM α} {f : α → EngineM β}
    (hx : Preserves x) (hf : ∀ a, Preserves (f a)) :
    Preserves (EngineM.bindE x f) := by
  intro ctx
  unfold EngineM.bindE
  cases h : x ctx with
  | mk r ctx' =>
    have hctx : ctx' = ctx := by
      have := hx ctx
      rw [h] at this
      exact this
    cases r with
    | ok a => simpa [hctx] using hf a ctx
    | error e => simpa using hctx

theorem preserves_bind {α β : Type} {x : EngineM α} {f : α → EngineM β}
    (hx : Preserves x) (hf : ∀ a, Preserves (f a)) :
    Preserves (x >>= f) := by
  rw [bind_eq]
  exact preserves_bindE hx hf

theorem preserves_catchErr {x : EngineM Value} (hx : Preserves x) :
    Preserves (catchErr x) := by
  intro ctx
  unfold catchErr
  cases h : x ctx with
  | mk r ctx' =>
    have hctx : ctx' = ctx := by
      have := hx ctx
      rw [h] at this
      exact this
    cases r <;> simpa using hctx

theorem preserves_get_range_values (rangeRef : String) :
    Preserves (get_range_values rangeRef) := by
  intro ctx
  unfold get_range_values
  split
  · split
    · rfl
    · split <;> rfl
  · rfl

theorem preserves_parse_args_loop (eval1 : String → EngineM Value)
    (h : ∀ s, Preserves (eval1 s)) (cs : List Char) :
    ∀ (args : List Value) (current : String) (depth : Int),
      Preserves (parse_args_loop eval1 cs args current depth) := by
  induction cs with
  | nil =>
    intro args current depth
    unfold parse_args_loop
    split
    · exact preserves_bind (h _) (fun v => preserves_pure _)
    · exact preserves_pure _
  | cons c rest ih =>
    intro args current depth
    unfold parse_args_loop
    split
    · exact ih _ _ _
    · split
      · exact ih _ _ _
      · split
        · exact preserves_bind (h _) (fun v => ih _ _ _)
        · exact ih _ _ _

/-- No method of the engine, at any stack budget, modifies the cell-data
dictionary: the only dictionary operation in the call graph is the read
`self.data.get`. -/
theorem engine_preserves (n : Nat) :
    (∀ s, Preserves ((engine n).evaluate s))
    ∧ (∀ s, Preserves ((engine n).parse_and_eval s))
    ∧ (∀ s, Preserves ((engine n).parse_args s))
    ∧ (∀ s, Preserves ((engine n).get_cell_value s)) := by
  induction n with
  | zero =>
    exact ⟨fun _ _ => rfl, fun _ _ => rfl, fun _ _ => rfl, fun _ _ => rfl⟩
  | succ n ih =>
    obtain ⟨he, hp, ha, hg⟩ := ih
    refine ⟨fun s => ?_, fun s => ?_, fun s => ?_, fun s => ?_⟩
    · show Preserves (evaluateFn (engine n) s)
      unfold evaluateFn
      split
      · exact preserves_pureE _
      · exact preserves_catchErr (hp _)
    · show Preserves (parse_and_evalFn (engine n) s)
      unfold parse_and_evalFn parse_and_eval_stripped
      split
      · exact preserves_bind (ha _) (fun args => preserves_liftE _)
      · split
        · exact hg _
        · split
          · exact preserves_pureE _
          · exact preserves_pureE _
    · show Preserves (parse_argsFn (engine n) s)
      unfold parse_argsFn
      exact preserves_parse_args_loop _ hp _ _ _ _
    · show Preserves (get_cell_valueFn (engine n) s)
      unfold get_cell_valueFn
      split
      · exact preserves_get_range_values _
      · refine preserves_bind (preserves_dataGet _ _) (fun val => ?_)
        cases val with
        | str s' =>
          simp only
          split
          · exact he _
          · exact preserves_pure _
        | int n => exact preserves_pure _
        | float q => exact preserves_pure _
        | bool b => exact preserves_pure _
        | list l => exact preserves_pure _
        | error m => exact preserves_pure _

/-- C9: one call to `evaluate`, at any stack budget and on any formula,
leaves the evaluation context (the engine's cell-data mapping) exactly as
it found it: no binding is added, removed or changed anywhere in the
recursive descent. -/
theorem evaluate_preserves_context (fuel : Nat) (formula : String) (ctx : Ctx) :
    (evaluate fuel formula ctx).2 = ctx :=
  (engine_preserves fuel).1 formula ctx

/-- C3: the top-level `evaluate` never raises to its caller: whenever the
call itself can start (one stack frame available), the result is an
`Except.ok` value; and any exception `e` raised by the recursive descent is
reported as the uniform `{"error": e}` value. -/
theorem evaluate_never_raises (fuel : Nat) (formula : String) (ctx : Ctx) :
    (∃ v, (evaluate (fuel + 1) formula ctx).1 = Except.ok v)
    ∧ (∀ e, pyStartsWith formula '=' = true →
        ((engine fuel).parse_and_eval (String.mk (formula.data.drop 1)) ctx).1
          = Except.error e →
        (evaluate (fuel + 1) formula ctx).1 = Except.ok (Value.error e)) := by
  constructor
  · show ∃ v, (evaluateFn (engine fuel) formula ctx).1 = Except.ok v
    unfold evaluateFn
    split
    · exact ⟨Value.str formula, rfl⟩
    · unfold catchErr
      cases h : (engine fuel).parse_and_eval (String.mk (formula.data.drop 1)) ctx with
      | mk r ctx' =>
        cases r with
        | ok v => exact ⟨v, by simp [h]⟩
        | error e => exact ⟨Value.error e, by simp [h]⟩
  · intro e hstart herr
    have hev : evaluate (fuel + 1) formula
        = catchErr ((engine fuel).parse_and_eval (String.mk (formula.data.drop 1))) := by
      show evaluateFn (engine fuel) formula = _
      unfold evaluateFn
      rw [hstart]
      exact if_neg (by decide)
    rw [hev]
    unfold catchErr
    cases h : (engine fuel).parse_and_eval (String.mk (formula.data.drop 1)) ctx with
    | mk r ctx' =>
      rw [h] at herr
      have hr : r = Except.error e := herr
      subst hr
      rfl

/-- Witness for C3 at a concrete input: an unknown-function exception
raised inside the descent comes back as the error value. -/
theorem evaluate_never_raises_witness :
    (evaluate 6 "=NOPE(1)" []).1 = Except.ok (Value.error "Unknown function: NOPE") :=
  (evaluate_never_raises 5 "=NOPE(1)" []).2 "Unknown function: NOPE" rfl rfl

/-- C1: the letter-run/integer mapping does not round-trip on all of
[0, 16383]: `_col_to_letter 26 = "AA"`, but the base-26 fold used by
`_parse_cell_ref` maps `"AA"` back to 0 (it never adds the +1 per
letter), so the round-trip at 26 yields 0, not 26. -/
theorem col_letter_roundtrip_breaks_at_26 :
    col_to_letter 26 = "AA"
    ∧ letters_to_col "AA".data = 0
    ∧ parse_cell_ref "AA1" = Except.ok ⟨0, 0⟩
    ∧ (0 : Int) ≠ 26 :=
  ⟨rfl, rfl, rfl, by decide⟩

/-- C5: `LEFT` with a single argument does return the first character, but
`RIGHT` with a single argument returns `str(a[0])[1:]` — everything but
the first character — because the unparenthesised conditional
`-int(a[1]) if len(a) > 1 else 1` makes the default slice start the
positive index 1, not -1. -/
theorem right_default_is_positive_one_slice :
    call_function "LEFT" [Value.str "hello"] = Except.ok (Value.str "h")
    ∧ call_function "RIGHT" [Value.str "hello"] = Except.ok (Value.str "ello")
    ∧ "ello" ≠ "o" :=
  ⟨rfl, rfl, by decide⟩

/-- C10: when the flattened argument list is empty, `MAX` and `MIN` both
return the numeric 0 rather than raising (`max(...) if flat else 0`). -/
theorem max_min_empty_flatten_yield_zero (args : List Value)
    (h : flattenL args = []) :
    call_function "MAX" args = Except.ok (Value.int 0)
    ∧ call_function "MIN" args = Except.ok (Value.int 0) := by
  have hmax : call_function "MAX" args
      = (if (flattenL args).isEmpty then Except.ok (Value.int 0)
         else pyMax (flattenL args)) := rfl
  have hmin : call_function "MIN" args
      = (if (flattenL args).isEmpty then Except.ok (Value.int 0)
         else pyMin (flattenL args)) := rfl
  rw [hmax, hmin, h]
  exact ⟨rfl, rfl⟩

/-- Witness for C10: a single empty-range argument flattens to nothing and
both aggregates return 0. -/
theorem max_min_empty_flatten_yield_zero_witness :
    call_function "MAX" [Value.list []] = Except.ok (Value.int 0)
    ∧ call_function "MIN" [Value.list []] = Except.ok (Value.int 0) :=
  max_min_empty_flatten_yield_zero [Value.list []] rfl

theorem pyRange_length (a b : Int) : (pyRange a b).length = (b - a).toNat := by
  unfold pyRange
  rw [List.length_map, List.length_range]

theorem pyRange_getElem (a b : Int) (i : Nat) (h : i < (b - a).toNat) :
    (pyRange a b)[i]? = some (a + i) := by
  unfold pyRange
  rw [List.getElem?_map, List.getElem?_range h]
  rfl

/-- C7: for a range whose start is ≤ its end on both axes, the expansion
loops of `_get_range_values` produce a grid with exactly
`end.row − start.row + 1` rows of exactly `end.col − start.col + 1` cells
each — `(end.row − start.row + 1) × (end.col − start.col + 1)` references
in total — and the cell at position `(i, j)` is the lookup of the
reference `colToLetter(start.col + j) ++ toString(start.row + i + 1)`:
row-major order with both endpoints inclusive. -/
theorem range_expansion_row_major_shape (ctx : Ctx) (s e : CellRef)
    (hrow : s.row ≤ e.row) (hcol : s.col ≤ e.col) :
    (rangeGrid ctx s e).length = (e.row - s.row + 1).toNat
    ∧ (∀ row ∈ rangeGrid ctx s e, row.length = (e.col - s.col + 1).toNat)
    ∧ ((rangeGrid ctx s e).map List.length).sum
        = ((e.row - s.row + 1) * (e.col - s.col + 1)).toNat
    ∧ ∀ i j : Nat, (i : Int) < e.row - s.row + 1 → (j : Int) < e.col - s.col + 1 →
        ((rangeGrid ctx s e)[i]?).bind (fun row => row[j]?)
          = some (ctxGet ctx (cellName (s.col + (j : Int)) (s.row + (i : Int)))
              (Value.int 0)) := by
  have hlen : (rangeGrid ctx s e).length = (e.row - s.row + 1).toNat := by
    unfold rangeGrid
    rw [List.length_map, pyRange_length]
    omega
  have hrowlen : ∀ row ∈ rangeGrid ctx s e,
      row.length = (e.col - s.col + 1).toNat := by
    intro row hmem
    unfold rangeGrid at hmem
    obtain ⟨r, _, hr⟩ := List.mem_map.mp hmem
    rw [← hr, List.length_map, pyRange_length]
    omega
  refine ⟨hlen, hrowlen, ?_, ?_⟩
  · have hrep : (rangeGrid ctx s e).map List.length
        = List.replicate ((e.row - s.row + 1).toNat) ((e.col - s.col + 1).toNat) := by
      apply List.eq_replicate_iff.mpr
      refine ⟨by rw [List.length_map, hlen], ?_⟩
      intro b hb
      obtain ⟨row, hrow', hb'⟩ := List.mem_map.mp hb
      rw [← hb']
      exact hrowlen row hrow'
    rw [hrep, List.sum_replicate, smul_eq_mul]
    have h1 : (0 : Int) ≤ e.row - s.row + 1 := by omega
    have h2 : (0 : Int) ≤ e.col - s.col + 1 := by omega
    have : (e.row - s.row + 1) * (e.col - s.col + 1)
        = (((e.row - s.row + 1).toNat * (e.col - s.col + 1).toNat : Nat) : Int) := by
      push_cast
      rw [Int.toNat_of_nonneg h1, Int.toNat_of_nonneg h2]
    rw [this, Int.toNat_natCast]
  · intro i j hi hj
    have hi' : i < (e.row + 1 - s.row).toNat := by omega
    have hj' : j < (e.col + 1 - s.col).toNat := by omega
    unfold rangeGrid
    rw [List.getElem?_map, pyRange_getElem _ _ _ hi']
    simp only [Option.map_some', Option.some_bind]
    rw [List.getElem?_map, pyRange_getElem _ _ _ hj']
    rfl

/-- Witness for C7 at a concrete range (A1:B2, empty context): a 2×2 grid. -/
theorem range_expansion_row_major_shape_witness :
    (rangeGrid [] ⟨0, 0⟩ ⟨1, 1⟩).length = ((1 : Int) - 0 + 1).toNat :=
  (range_expansion_row_major_shape [] ⟨0, 0⟩ ⟨1, 1⟩ (by decide) (by decide)).1

/-- C4 (amended): when `_get_cell_value` receives a range reference, the
resulting grid's cells come from the direct dictionary read
`self.data.get(cell_ref, 0)` (`rangeGrid`), not from the single-reference
rule: a stored formula string is returned raw, never recursively
evaluated. -/
theorem range_cells_are_raw_lookups (fuel : Nat) (ctx : Ctx)
    (rangeRef r1 r2 : String) (sref eref : CellRef)
    (hcolon : containsChar rangeRef ':' = true)
    (hsplit : (splitChar ':' rangeRef.data).map String.mk = [r1, r2])
    (h1 : parse_cell_ref r1 = Except.ok sref)
    (h2 : parse_cell_ref r2 = Except.ok eref) :
    ((engine (fuel + 1)).get_cell_value rangeRef ctx).1
      = Except.ok (Value.list ((rangeGrid ctx sref eref).map Value.list)) := by
  show (get_cell_valueFn (engine fuel) rangeRef ctx).1 = _
  unfold get_cell_valueFn
  rw [if_pos hcolon]
  unfold get_range_values
  simp only [hsplit, h1, h2]

/-- Witness for C4's amended theorem at `A1:B1` in the empty context. -/
theorem range_cells_are_raw_lookups_witness :
    ((engine 1).get_cell_value "A1:B1" []).1
      = Except.ok (Value.list ((rangeGrid [] ⟨0, 0⟩ ⟨1, 0⟩).map Value.list)) :=
  range_cells_are_raw_lookups 0 [] "A1:B1" "A1" "B1" ⟨0, 0⟩ ⟨1, 0⟩ rfl rfl rfl rfl

/-- Counterexample for C4 as stated: with `A1` holding the formula string
`"=2"`, evaluating the range `A1:B1` returns the raw stored string in the
grid, while evaluating the single reference `A1` recursively evaluates it
to the float 2 — the range path does not apply the single-reference
rule. -/
theorem range_formula_cell_not_recursed_cex :
    (evaluate 10 "=A1:B1" [("A1", Value.str "=2"), ("B1", Value.int 3)]).1
      = Except.ok (Value.list [Value.list [Value.str "=2", Value.int 3]])
    ∧ (evaluate 10 "=A1" [("A1", Value.str "=2"), ("B1", Value.int 3)]).1
      = Except.ok (Value.float 2)
    ∧ Value.str "=2" ≠ Value.float 2 :=
  ⟨rfl, rfl, fun h => Value.noConfusion h⟩

theorem pyAdd_num_ok {a v : Value} (ha : isNumV a = true) (hv : isNumV v = true) :
    ∃ w, pyAdd a v = Except.ok w ∧ isNumV w = true := by
  cases a <;> cases v <;>
    first
      | exact ⟨_, rfl, rfl⟩
      | simp [isNumV] at ha hv

theorem pyAdd_num_err {a v : Value} (ha : isNumV a = true) (hv : isNumV v = false) :
    ∃ e, pyAdd a v = Except.error e := by
  cases a <;> cases v <;>
    first
      | exact ⟨_, rfl⟩
      | simp [isNumV] at ha hv

theorem pySumGo_isOk (l : List Value) : ∀ acc, isNumV acc = true →
    isOkE (pySumGo acc l) = l.all isNumV := by
  induction l with
  | nil => intro acc _; rfl
  | cons v rest ih =>
    intro acc ha
    unfold pySumGo
    cases hv : isNumV v with
    | true =>
      obtain ⟨w, hw, hnw⟩ := pyAdd_num_ok ha hv
      rw [hw, ih w hnw]
      simp [hv]
    | false =>
      obtain ⟨e, he⟩ := pyAdd_num_err ha hv
      rw [he]
      simp [isOkE, hv]

theorem pySumGo_ok_num (l : List Value) : ∀ acc w, isNumV acc = true →
    pySumGo acc l = Except.ok w → isNumV w = true := by
  induction l with
  | nil =>
    intro acc w ha h
    have : acc = w := by
      have h' : Except.ok (ε := String) acc = Except.ok w := h
      cases h'
      rfl
    rw [← this]
    exact ha
  | cons v rest ih =>
    intro acc w ha h
    unfold pySumGo at h
    cases hv : isNumV v with
    | true =>
      obtain ⟨w', hw', hnw'⟩ := pyAdd_num_ok ha hv
      rw [hw'] at h
      exact ih w' w hnw' h
    | false =>
      obtain ⟨e, he⟩ := pyAdd_num_err ha hv
      rw [he] at h
      cases h

theorem ratOf_of_num {v : Value} (h : isNumV v = true) : ∃ x, ratOf v = some x := by
  cases v <;>
    first
      | exact ⟨_, rfl⟩
      | simp [isNumV] at h

theorem sum_isOk (args : List Value) :
    isOkE (call_function "SUM" args) = (flattenL args).all isNumV :=
  pySumGo_isOk (flattenL args) (Value.int 0) rfl

theorem average_isOk (args : List Value) :
    isOkE (call_function "AVERAGE" args) = (flattenL args).all isNumV := by
  have hdef : call_function "AVERAGE" args
      = (if (flattenL args).isEmpty then Except.ok (Value.int 0)
         else do
           let s ← pySum (flattenL args)
           pyTrueDiv s (Value.int ((flattenL args).length : Int))) := rfl
  rw [hdef]
  cases hfl : flattenL args with
  | nil => rfl
  | cons v rest =>
    rw [if_neg (by simp : ¬((v :: rest).isEmpty = true))]
    have hall : isOkE (pySum (v :: rest)) = (v :: rest).all isNumV :=
      pySumGo_isOk (v :: rest) (Value.int 0) rfl
    cases hs : pySum (v :: rest) with
    | error e =>
      rw [hs] at hall
      exact hall
    | ok w =>
      have hw : isNumV w = true := pySumGo_ok_num (v :: rest) (Value.int 0) w rfl hs
      rw [hs] at hall
      obtain ⟨x, hx⟩ := ratOf_of_num hw
      have hlen : ((((v :: rest).length : Int) : Rat)) ≠ 0 := by
        rw [Int.cast_ne_zero]
        simp only [List.length_cons]
        omega
      show isOkE (pyTrueDiv w (Value.int ((v :: rest).length : Int))) = _
      unfold pyTrueDiv
      rw [hx]
      simp only [ratOf]
      rw [if_neg hlen]
      exact hall

theorem cmp_kinds_gt {a b : Value} {r : Bool} (h : pyGtB a b = Except.ok r) :
    kindV a = kindV b ∧ kindV a ≠ 2 := by
  cases a <;> cases b <;> simp_all [pyGtB, ratOf, kindV]

theorem cmp_kinds_lt {a b : Value} {r : Bool} (h : pyLtB a b = Except.ok r) :
    kindV a = kindV b ∧ kindV a ≠ 2 := by
  cases a <;> cases b <;> simp_all [pyLtB, ratOf, kindV]

theorem kindV_cases (v : Value) : kindV v = 0 ∨ kindV v = 1 ∨ kindV v = 2 := by
  cases v <;> simp [kindV]

theorem kind_of_num {v : Value} (h : isNumV v = true) : kindV v = 0 := by
  cases v <;> simp_all [isNumV, kindV]

theorem kind_of_str {v : Value} (h : isStrV v = true) : kindV v = 1 := by
  cases v <;> simp_all [isStrV, kindV]

theorem foldBest_mixed (cmp : Value → Value → Except String Bool)
    (hcmp : ∀ a b r, cmp a b = Except.ok r → kindV a = kindV b ∧ kindV a ≠ 2)
    (l : List Value) :
    ∀ best : Value,
      (∃ x ∈ best :: l, kindV x = 0) → (∃ y ∈ best :: l, kindV y = 1) →
      ∃ e, foldBest cmp best l = Except.error e := by
  induction l with
  | nil =>
    intro best hx hy
    obtain ⟨x, hx1, hx2⟩ := hx
    obtain ⟨y, hy1, hy2⟩ := hy
    simp only [List.mem_singleton] at hx1 hy1
    subst hx1
    subst hy1
    omega
  | cons v rest ih =>
    intro best hx hy
    unfold foldBest
    cases hc : cmp v best with
    | error e => exact ⟨e, rfl⟩
    | ok b =>
      obtain ⟨hkeq, hk2⟩ := hcmp _ _ _ hc
      have hbk : kindV (if b then v else best) = kindV best := by
        cases b
        · rfl
        · simpa using hkeq
      have hbest2 : kindV best ≠ 2 := by omega
      obtain ⟨x, hx1, hx2⟩ := hx
      obtain ⟨y, hy1, hy2⟩ := hy
      rcases kindV_cases best with h0 | h1 | h2
      · -- the running best is number-like; the string witness must sit in rest
        have hy_rest : y ∈ rest := by
          rcases List.mem_cons.mp hy1 with h | h
          · subst h; omega
          · rcases List.mem_cons.mp h with h' | h'
            · subst h'; omega
            · exact h'
        exact ih (if b then v else best)
          ⟨_, List.mem_cons_self _ _, by rw [hbk, h0]⟩
          ⟨y, List.mem_cons_of_mem _ hy_rest, hy2⟩
      · -- the running best is a string; the numeric witness must sit in rest
        have hx_rest : x ∈ rest := by
          rcases List.mem_cons.mp hx1 with h | h
          · subst h; omega
          · rcases List.mem_cons.mp h with h' | h'
            · subst h'; omega
            · exact h'
        exact ih (if b then v else best)
          ⟨x, List.mem_cons_of_mem _ hx_rest, hx2⟩
          ⟨_, List.mem_cons_self _ _, by rw [hbk, h1]⟩
      · exact absurd h2 hbest2

theorem maxmin_mixed (args : List Value)
    (hn : (flattenL args).any isNumV = true)
    (hs : (flattenL args).any isStrV = true) :
    isOkE (call_function "MAX" args) = false
    ∧ isOkE (call_function "MIN" args) = false := by
  have hdefmax : call_function "MAX" args
      = (if (flattenL args).isEmpty then Except.ok (Value.int 0)
         else pyMax (flattenL args)) := rfl
  have hdefmin : call_function "MIN" args
      = (if (flattenL args).isEmpty then Except.ok (Value.int 0)
         else pyMin (flattenL args)) := rfl
  rw [hdefmax, hdefmin]
  cases hfl : flattenL args with
  | nil =>
    rw [hfl] at hn
    simp at hn
  | cons v rest =>
    rw [hfl] at hn hs
    obtain ⟨x, hx1, hx2⟩ := List.any_eq_true.mp hn
    obtain ⟨y, hy1, hy2⟩ := List.any_eq_true.mp hs
    have hxk := kind_of_num hx2
    have hyk := kind_of_str hy2
    rw [if_neg (by simp : ¬((v :: rest).isEmpty = true)),
      if_neg (by simp : ¬((v :: rest).isEmpty = true))]
    constructor
    · obtain ⟨e, he⟩ := foldBest_mixed pyGtB (fun a b r h => cmp_kinds_gt h) rest v
        ⟨x, hx1, hxk⟩ ⟨y, hy1, hyk⟩
      show isOkE (foldBest pyGtB v rest) = false
      rw [he]
      rfl
    · obtain ⟨e, he⟩ := foldBest_mixed pyLtB (fun a b r h => cmp_kinds_lt h) rest v
        ⟨x, hx1, hxk⟩ ⟨y, hy1, hyk⟩
      show isOkE (foldBest pyLtB v rest) = false
      rw [he]
      rfl

/-- C6 (amended): the aggregates do NOT restrict themselves to the numeric
subset of the flattened values — they consume all of them.  `SUM` and
`AVERAGE` succeed exactly when every flattened value is a number (a
non-numeric value raises `TypeError`, reported as an error); `MAX`/`MIN`
raise whenever the flattened values mix a number with a string; `COUNT`
alone filters, counting exactly the values that are numbers
(`isinstance(x, (int, float))`, booleans included). -/
theorem aggregates_over_all_flattened_values (args : List Value) :
    (isOkE (call_function "SUM" args) = (flattenL args).all isNumV)
    ∧ (isOkE (call_function "AVERAGE" args) = (flattenL args).all isNumV)
    ∧ ((flattenL args).any isNumV = true → (flattenL args).any isStrV = true →
        isOkE (call_function "MAX" args) = false
        ∧ isOkE (call_function "MIN" args) = false)
    ∧ call_function "COUNT" args
        = Except.ok (Value.int (((flattenL args).countP (fun v => isNumV v)) : Int)) :=
  ⟨sum_isOk args, average_isOk args, fun hn hs => maxmin_mixed args hn hs, rfl⟩

/-- Witness for C6's amended theorem: `MAX`/`MIN` over a string and a
number both fail. -/
theorem aggregates_over_all_flattened_values_witness :
    isOkE (call_function "MAX" [Value.str "x", Value.int 1]) = false
    ∧ isOkE (call_function "MIN" [Value.str "x", Value.int 1]) = false :=
  (aggregates_over_all_flattened_values [Value.str "x", Value.int 1]).2.2.1 rfl rfl

/-- Counterexample for C6 as stated: a non-numeric value among the
flattened arguments of `SUM` does change the result — `SUM` over a string
and a number raises `TypeError` (reported as an error), while `SUM` over
just the number returns it. -/
theorem sum_nonnumeric_changes_result_cex :
    call_function "SUM" [Value.str "x", Value.int 1]
      = Except.error "TypeError: unsupported operand type(s) for +: 'int' and 'str'"
    ∧ call_function "SUM" [Value.int 1] = Except.ok (Value.int 1)
    ∧ (Except.error "TypeError: unsupported operand type(s) for +: 'int' and 'str'"
        ≠ (Except.ok (Value.int 1) : Except String Value)) :=
  ⟨rfl, rfl, fun h => Except.noConfusion h⟩

theorem ctxGet_of_lookup_none {ctx : Ctx} {key : String}
    (h : ctxLookup ctx key = none) (dflt : Value) : ctxGet ctx key dflt = dflt := by
  unfold ctxGet
  rw [h]
  rfl

theorem ctxGet_of_lookup_some {ctx : Ctx} {key : String} {v : Value}
    (h : ctxLookup ctx key = some v) (dflt : Value) : ctxGet ctx key dflt = v := by
  unfold ctxGet
  rw [h]
  rfl

theorem get_cell_value_absent (fuel : Nat) (ref : String) (ctx : Ctx)
    (hc : containsChar ref ':' = false)
    (hl : ctxLookup ctx (toUpperS (removeChar ref '$')) = none) :
    ((engine (fuel + 1)).get_cell_value ref ctx).1 = Except.ok (Value.int 0) := by
  show (get_cell_valueFn (engine fuel) ref ctx).1 = _
  unfold get_cell_valueFn
  rw [if_neg (by rw [hc]; simp)]
  simp only [bind_eq]
  unfold EngineM.bindE dataGet
  rw [ctxGet_of_lookup_none hl]
  rfl

theorem gc_C5 (n : Nat) (ctx : Ctx) (h : ctxLookup ctx "C5" = none) :
    (engine (n + 1)).get_cell_value "C5" ctx = (Except.ok (Value.int 0), ctx) := by
  have heq : (engine (n + 1)).get_cell_value "C5" ctx
      = ((fun val => (match val with
          | Value.str s =>
            if pyStartsWith s '=' then (engine n).evaluate s
            else EngineM.pureE val
          | _ => EngineM.pureE val : EngineM Value))
        (ctxGet ctx "C5" (Value.int 0))) ctx := rfl
  rw [heq, ctxGet_of_lookup_none h]
  rfl

theorem eval_sumC5 (n : Nat) (ctx : Ctx) (h : ctxLookup ctx "C5" = none) :
    (evaluate (n + 5) "=SUM(C5)" ctx).1 = Except.ok (Value.int 0) := by
  have heq : evaluate (n + 5) "=SUM(C5)" ctx
      = catchErr (EngineM.bindE
          (EngineM.bindE ((engine (n + 1)).get_cell_value "C5")
            (fun v => EngineM.pureE [v]))
          (fun args => liftE (call_function "SUM" args))) ctx := rfl
  rw [heq]
  unfold catchErr EngineM.bindE
  rw [gc_C5 n ctx h]
  rfl

/-- C8: a single (non-range) cell reference absent from the context resolves
to the numeric 0, not an error; in particular `evaluate("=SUM(C5)")` with no
entry for `C5` returns 0. -/
theorem absent_cell_defaults_to_zero :
    (∀ (fuel : Nat) (ref : String) (ctx : Ctx),
        containsChar ref ':' = false →
        ctxLookup ctx (toUpperS (removeChar ref '$')) = none →
        ((engine (fuel + 1)).get_cell_value ref ctx).1 = Except.ok (Value.int 0))
    ∧ ∀ (fuel : Nat) (ctx : Ctx), ctxLookup ctx "C5" = none →
        (evaluate (fuel + 5) "=SUM(C5)" ctx).1 = Except.ok (Value.int 0) :=
  ⟨get_cell_value_absent, eval_sumC5⟩

/-- Witness for C8 in the empty context. -/
theorem absent_cell_defaults_to_zero_witness :
    (evaluate 5 "=SUM(C5)" []).1 = Except.ok (Value.int 0) :=
  absent_cell_defaults_to_zero.2 0 [] rfl

/-- C2 (amended): the unmatched parenthesis in `"=SUM(A1:A2"` is silently
tolerated — `rsplit(')', 1)` on a string without `)` keeps the whole
argument text — so for any context holding ints `a` and `b` at `A1` and
`A2`, evaluation returns the numeric sum `a + b`, not an error value. -/
theorem sum_unmatched_paren_returns_sum (fuel : Nat) (ctx : Ctx) (a b : Int)
    (hA : ctxLookup ctx "A1" = some (Value.int a))
    (hB : ctxLookup ctx "A2" = some (Value.int b)) :
    (evaluate (fuel + 5) "=SUM(A1:A2" ctx).1 = Except.ok (Value.int (a + b)) := by
  have heq : evaluate (fuel + 5) "=SUM(A1:A2" ctx
      = catchErr (EngineM.bindE
          (EngineM.bindE (get_range_values "A1:A2")
            (fun v => EngineM.pureE [v]))
          (fun args => liftE (call_function "SUM" args))) ctx := rfl
  have hr : get_range_values "A1:A2" ctx
      = (Except.ok (Value.list [Value.list [ctxGet ctx "A1" (Value.int 0)],
          Value.list [ctxGet ctx "A2" (Value.int 0)]]), ctx) := rfl
  rw [heq]
  unfold catchErr EngineM.bindE
  rw [hr, ctxGet_of_lookup_some hA, ctxGet_of_lookup_some hB]
  show Except.ok (Value.int (0 + a + b)) = Except.ok (Value.int (a + b))
  rw [zero_add]

/-- Witness for C2's amended theorem: `A1 = 1`, `A2 = 2` gives 3. -/
theorem sum_unmatched_paren_returns_sum_witness :
    (evaluate 5 "=SUM(A1:A2" [("A1", Value.int 1), ("A2", Value.int 2)]).1
      = Except.ok (Value.int 3) :=
  sum_unmatched_paren_returns_sum 0 [("A1", Value.int 1), ("A2", Value.int 2)] 1 2 rfl rfl

/-- Counterexample for C2 as stated: on the context `A1 = 1`, `A2 = 2` the
malformed formula evaluates to the numeric 3 — not an `{"error": ...}`
value. -/
theorem sum_unmatched_paren_not_error_cex :
    (evaluate 10 "=SUM(A1:A2" [("A1", Value.int 1), ("A2", Value.int 2)]).1
      = Except.ok (Value.int 3)
    ∧ isErrV (Value.int 3) = false
    ∧ isNumV (Value.int 3) = true :=
  ⟨rfl, rfl, rfl⟩
